import Mathlib

/-!
Shallow embedding of the wgpu-engine texture / mipmap subsystem:
`MipGenerator.ts`, `Surface.ts` (which also holds `Gpu`), `Program.ts`
(`src/unnamed/part_001`, second half) and `TextureLoader.ts`
(`src/unnamed/part_001`, first half).

GPU handles (adapter, device, shader module, pipeline, sampler, texture)
are modelled as plain records carrying the data the repository code puts
into their descriptors.  The host platform (adapter/device enumeration,
shader-module and pipeline creation) is modelled as an explicit parameter:
the repository treats it as an external capability provider that may
return `null` or throw, so the model lets each platform operation fail.
Errors are modelled by their thrown message strings, exactly as the code
writes them in `new Error(...)`.
-/

namespace WgpuEngine

/-- A WebGPU texture format, a string such as "rgba8unorm". -/
abbrev Format := String

/-- Error values: the message of the `Error` the code throws. -/
abbrev Err := String

/-- Message thrown by `Gpu.adapter` / `Gpu.device` (Surface.ts line 207/222). -/
def gpuNotInitMsg : Err := "Rendering device is not initialized"

/-- Message thrown by `Surface.context` / `Surface.format` (Surface.ts line 95/111). -/
def surfaceNotInitMsg : Err := "Surface is not initialized"

/-- Message thrown by `Program.shaderModule` / `Program.pipeline` (Program, part_001). -/
def programNotInitMsg : Err := "Program is not initialized"

/-- Message thrown by `MipGenerator.sampler` (MipGenerator.ts line 28). -/
def mipGenNotInitMsg : Err := "MipGenerator is not initialized"

/-- Both failure sites of `Gpu.init` throw this same message (Surface.ts lines 237, 246). -/
def noWebGpuMsg : Err := "browser does not support WebGPU"

/-- Message thrown by `Surface.init` when the canvas has no webgpu context. -/
def canvasNoWebGpuMsg : Err := "canvas does not support WebGPU"

/-! ## countMipLevels (MipGenerator.ts lines 51-54)

The source computes `(1 + Math.log2(maxSize)) | 0`.  For a natural
`maxSize ≥ 1` the truncation `| 0` of `1 + log2 maxSize` is exactly
`1 + ⌊log₂ maxSize⌋ = 1 + Nat.log 2 maxSize`; for `maxSize = 0`,
`Math.log2 0 = -Infinity` and `(-Infinity) | 0 = 0` in JS. -/

/-- The value `Math.max(...sizes)` over naturals (empty list collapses to 0). -/
def maxSize (sizes : List Nat) : Nat := sizes.foldl max 0

/-- The function `MipGenerator.countMipLevels(...sizes)`, i.e. `(1 + Math.log2(max sizes)) | 0`. -/
def countMipLevels (sizes : List Nat) : Nat :=
  if maxSize sizes = 0 then 0 else 1 + Nat.log 2 (maxSize sizes)

/-! ## The per-level loop of MipGenerator.generate (lines 184-214)

The loop variables are `width`, `height`, `baseMipLevel`; the loop guard
is the source's `(baseMipLevel < mipLevelCount && width > 1) || height > 1`
verbatim, and each iteration halves both dimensions with
`Math.max(1, (d / 2) | 0)` and records one render pass reading level
`baseMipLevel` and writing level `baseMipLevel + 1`. -/

/-- One recorded render pass of mip generation: the bind group samples
`srcLevel` and the render pass writes `dstLevel = srcLevel + 1`;
`dstWidth`/`dstHeight` are the loop's tracked dimensions after halving,
i.e. the dimensions of the destination level. -/
structure MipPass where
  srcLevel : Nat
  dstLevel : Nat
  dstWidth : Nat
  dstHeight : Nat
deriving DecidableEq, Repr

/-- The loop guard of `generate`, exactly as parenthesised in the source:
`(baseMipLevel < mipLevelCount && width > 1) || height > 1`. -/
def genCond (mipLevelCount baseMipLevel width height : Nat) : Bool :=
  (decide (baseMipLevel < mipLevelCount) && decide (1 < width)) || decide (1 < height)

/-- The while-loop of `generate`: returns the recorded passes and the final
`baseMipLevel` (the value the function returns). -/
def genLoop (mipLevelCount baseMipLevel width height : Nat) : List MipPass × Nat :=
  if genCond mipLevelCount baseMipLevel width height then
    (⟨baseMipLevel, baseMipLevel + 1, max 1 (width / 2), max 1 (height / 2)⟩ ::
        (genLoop mipLevelCount (baseMipLevel + 1) (max 1 (width / 2)) (max 1 (height / 2))).1,
      (genLoop mipLevelCount (baseMipLevel + 1) (max 1 (width / 2)) (max 1 (height / 2))).2)
  else
    ([], baseMipLevel)
termination_by width + height + (1 - min 1 width) + (1 - min 1 height)
decreasing_by
  all_goals
    simp only [genCond, Bool.or_eq_true, Bool.and_eq_true, decide_eq_true_eq] at *
    omega

/-- The pure levels/dimensions behaviour of `generate(gpu, texture, mipLevelCount?)`:
default level count is `countMipLevels(width, height)` (line 187), then the loop
runs from `baseMipLevel = 0`. -/
def generateLevels (width height : Nat) (mipLevelCount? : Option Nat) : List MipPass × Nat :=
  genLoop (mipLevelCount?.getD (countMipLevels [width, height])) 0 width height

/-! ## Platform handles and the external WebGPU capability provider -/

/-- Handle to a physical graphics adapter (opaque, identified by a tag). -/
structure GPUAdapter where
  id : Nat
deriving DecidableEq, Repr

/-- Device limits; the repository reads `limits.maxTextureDimension2D`. -/
structure GPUSupportedLimits where
  maxTextureDimension2D : Nat
deriving DecidableEq, Repr

/-- Handle to a logical GPU device.  `renderableFormats` models which texture
formats the platform accepts as a render-pipeline colour target: pipeline
creation for a format outside this list fails. -/
structure GPUDevice where
  label : String
  limits : GPUSupportedLimits
  renderableFormats : List Format
deriving DecidableEq, Repr

/-- Result of `device.createSampler`. -/
structure GPUSampler where
  minFilter : String
deriving DecidableEq, Repr

/-- Descriptor passed to `device.createShaderModule`. -/
structure GPUShaderModuleDescriptor where
  label : String
  code : String
deriving DecidableEq, Repr

/-- Result of `device.createShaderModule`. -/
structure GPUShaderModule where
  label : String
  code : String
deriving DecidableEq, Repr

/-- Descriptor passed to `device.createRenderPipeline`: the repository always
uses one module for both stages, `layout: 'auto'`, and a single colour target
`targets: [{ format }]`. -/
structure GPURenderPipelineDescriptor where
  label : String
  layout : String
  module : GPUShaderModule
  vertexEntryPoint : String
  fragmentEntryPoint : String
  targetFormat : Format
deriving DecidableEq, Repr

/-- Result of `device.createRenderPipeline`. -/
structure GPURenderPipeline where
  label : String
  module : GPUShaderModule
  targetFormat : Format
deriving DecidableEq, Repr

/-- Model of `device.createSampler` (used by `MipGenerator.init`). -/
def createSampler (_dev : GPUDevice) (minFilter : String) : GPUSampler :=
  ⟨minFilter⟩

/-- Model of `device.createShaderModule` (used by `Program.init`). -/
def createShaderModule (_dev : GPUDevice) (d : GPUShaderModuleDescriptor) : GPUShaderModule :=
  ⟨d.label, d.code⟩

/-- Model of `device.createRenderPipeline` (used by `Program.init`).  The
platform is the authority on which formats admit a render pipeline; creation
fails for a format outside `dev.renderableFormats` (the spec's
UnsupportedFormatError). -/
def createRenderPipeline (dev : GPUDevice) (d : GPURenderPipelineDescriptor) :
    Except Err GPURenderPipeline :=
  if d.targetFormat ∈ dev.renderableFormats then
    .ok ⟨d.label, d.module, d.targetFormat⟩
  else
    .error ("Unsupported format: " ++ d.targetFormat)

/-- Handle to a canvas webgpu context (`canvas.getContext('webgpu')`). -/
structure GPUCanvasContext where
  id : Nat
deriving DecidableEq, Repr

/-- The external platform: adapter/device enumeration (`navigator.gpu`) and
canvas context acquisition, each of which may return `null`. -/
structure Platform where
  requestAdapter : Option GPUAdapter
  requestDevice : GPUAdapter → String → Option GPUDevice
  getContext : Option GPUCanvasContext
  getPreferredCanvasFormat : Format

/-! ## Gpu (second half of Surface.ts, lines 165-252) -/

/-- State of the `Gpu` class: a label and the two null-initialised fields. -/
structure Gpu where
  label : String
  _adapter : Option GPUAdapter
  _device : Option GPUDevice

/-- Constructor `new Gpu(label)`: fields initialised to null. -/
def Gpu.new (label : String) : Gpu :=
  ⟨label, none, none⟩

/-- Getter `Gpu.ready`: `!!this._adapter && !!this._device`. -/
def Gpu.ready (g : Gpu) : Bool :=
  g._adapter.isSome && g._device.isSome

/-- Getter `Gpu.adapter`: throws when `_adapter` is null. -/
def Gpu.adapter (g : Gpu) : Except Err GPUAdapter :=
  match g._adapter with
  | none => .error gpuNotInitMsg
  | some a => .ok a

/-- Getter `Gpu.device`: throws when `_device` is null. -/
def Gpu.device (g : Gpu) : Except Err GPUDevice :=
  match g._device with
  | none => .error gpuNotInitMsg
  | some d => .ok d

/-- Method `Gpu.init`: assigns `_adapter` from `requestAdapter() ?? null` and
throws if null; then assigns `_device` from
`adapter.requestDevice({label: label + " device"}) ?? null` and throws if
null.  Both throw sites use the same message (Surface.ts lines 237, 246).
The returned state reflects the mutations performed before the throw. -/
def Gpu.init (g : Gpu) (plat : Platform) : Gpu × Except Err Unit :=
  match plat.requestAdapter with
  | none => ({ g with _adapter := none }, .error noWebGpuMsg)
  | some ad =>
    match plat.requestDevice ad (g.label ++ " device") with
    | none => ({ g with _adapter := some ad, _device := none }, .error noWebGpuMsg)
    | some dev => ({ g with _adapter := some ad, _device := some dev }, .ok ())

/-! ## Surface (Surface.ts lines 13-162) -/

/-- Arguments the repository passes to `context.configure`. -/
structure GPUCanvasConfiguration where
  device : GPUDevice
  format : Format
  alphaMode : String

/-- State of the `Surface` class.  `canvasWidth`/`canvasHeight` are the stored
`canvas.width`/`canvas.height`; `configured` records what `context.configure`
received; `observing` records that `resizeObserver.observe(canvas)` ran. -/
structure Surface where
  canvasWidth : Nat
  canvasHeight : Nat
  _context : Option GPUCanvasContext
  _format : Option Format
  configured : Option GPUCanvasConfiguration
  observing : Bool

/-- Constructor `new Surface(canvas)`: observer, context and format null. -/
def Surface.new (canvasWidth canvasHeight : Nat) : Surface :=
  ⟨canvasWidth, canvasHeight, none, none, none, false⟩

/-- Getter `Surface.ready`: `!!this._context && !!this._format`. -/
def Surface.ready (s : Surface) : Bool :=
  s._context.isSome && s._format.isSome

/-- Getter `Surface.context`: throws when `_context` is null. -/
def Surface.context (s : Surface) : Except Err GPUCanvasContext :=
  match s._context with
  | none => .error surfaceNotInitMsg
  | some c => .ok c

/-- Getter `Surface.format`: throws when `_format` is null. -/
def Surface.format (s : Surface) : Except Err Format :=
  match s._format with
  | none => .error surfaceNotInitMsg
  | some f => .ok f

/-- The body of the resize-observer callback (Surface.ts lines 141-157) for
one entry: clamp the reported content-box size to the device's
`maxTextureDimension2D`, then store it with a lower bound of 1.  The
user-supplied `onResize` callback (invoked afterwards) does not touch the
stored dimensions. -/
def Surface.onResizeEvent (s : Surface) (dev : GPUDevice) (inlineSize blockSize : Nat) :
    Surface :=
  { s with
    canvasWidth := max 1 (min inlineSize dev.limits.maxTextureDimension2D),
    canvasHeight := max 1 (min blockSize dev.limits.maxTextureDimension2D) }

/-- Method `Surface.init(gpu)`: stores the canvas offset size, acquires the
webgpu context (throws when null), resolves the preferred format, configures
the context with `gpu.device` (whose getter may throw) and premultiplied
alpha, and registers the resize observer. -/
def Surface.init (s : Surface) (gpu : Gpu) (plat : Platform)
    (offsetWidth offsetHeight : Nat) : Surface × Except Err Unit :=
  let s1 : Surface := { s with canvasWidth := offsetWidth, canvasHeight := offsetHeight }
  match plat.getContext with
  | none => ({ s1 with _context := none }, .error canvasNoWebGpuMsg)
  | some ctx =>
    let s2 : Surface :=
      { s1 with _context := some ctx, _format := some plat.getPreferredCanvasFormat }
    match gpu.device with
    | .error e => (s2, .error e)
    | .ok dev =>
      ({ s2 with
          configured := some ⟨dev, plat.getPreferredCanvasFormat, "premultiplied"⟩,
          observing := true },
        .ok ())

/-! ## Program (src/unnamed/part_001, second half) -/

/-- State of the `Program` class: the two null-initialised fields. -/
structure Program where
  _shaderModule : Option GPUShaderModule
  _pipeline : Option GPURenderPipeline
deriving DecidableEq, Repr

/-- Constructor `new Program()`. -/
def Program.new : Program :=
  ⟨none, none⟩

/-- Getter `Program.ready`: `!!this._shaderModule && !!this._pipeline`. -/
def Program.ready (p : Program) : Bool :=
  p._shaderModule.isSome && p._pipeline.isSome

/-- Getter `Program.shaderModule`: throws when `_shaderModule` is null. -/
def Program.shaderModule (p : Program) : Except Err GPUShaderModule :=
  match p._shaderModule with
  | none => .error programNotInitMsg
  | some m => .ok m

/-- Getter `Program.pipeline`: throws when `_pipeline` is null. -/
def Program.pipeline (p : Program) : Except Err GPURenderPipeline :=
  match p._pipeline with
  | none => .error programNotInitMsg
  | some pl => .ok pl

/-- The `ProgramDescriptor` record: thunked shader descriptor and a pipeline
descriptor built from the created module. -/
structure ProgramDescriptor where
  shaderDescriptor : Unit → GPUShaderModuleDescriptor
  pipelineDescriptor : GPUShaderModule → GPURenderPipelineDescriptor

/-- Method `Program.init(gpu, descriptor)`: assigns `_shaderModule` from
`gpu.device.createShaderModule(...)` (so `gpu.device` may throw first), then
assigns `_pipeline` from `gpu.device.createRenderPipeline(...)`, which may
fail; the module assignment survives a pipeline failure. -/
def Program.init (p : Program) (gpu : Gpu) (d : ProgramDescriptor) :
    Program × Except Err Unit :=
  match gpu.device with
  | .error e => (p, .error e)
  | .ok dev =>
    let sm := createShaderModule dev (d.shaderDescriptor ())
    let p1 : Program := { p with _shaderModule := some sm }
    match createRenderPipeline dev (d.pipelineDescriptor sm) with
    | .error e => (p1, .error e)
    | .ok pl => ({ p1 with _pipeline := some pl }, .ok ())

/-! ## MipGenerator (MipGenerator.ts) -/

/-- Contents of the `mipmap.wgsl` asset imported at the top of
MipGenerator.ts; the text is external to the repository core, so it is an
abstract constant here (no claim depends on its contents). -/
def mipmapShaderCode : String :=
  "mipmap.wgsl"

/-- Lookup in the JS `Map` backing `_programMap`, modelled as an insertion
ordered association list. -/
def mapGet (m : List (Format × Program)) (f : Format) : Option Program :=
  match m with
  | [] => none
  | (g, p) :: rest => if g = f then some p else mapGet rest f

/-- Update in the JS `Map`: replace the value when the key is present,
otherwise append. -/
def mapSet (m : List (Format × Program)) (f : Format) (p : Program) :
    List (Format × Program) :=
  match m with
  | [] => [(f, p)]
  | (g, q) :: rest => if g = f then (f, p) :: rest else (g, q) :: mapSet rest f p

/-- State of the `MipGenerator` class. -/
structure MipGenerator where
  _sampler : Option GPUSampler
  _programMap : List (Format × Program)

/-- Constructor `new MipGenerator()`: empty program map, null sampler. -/
def MipGenerator.new : MipGenerator :=
  ⟨none, []⟩

/-- Getter `MipGenerator.sampler`: throws when `_sampler` is null. -/
def MipGenerator.sampler (m : MipGenerator) : Except Err GPUSampler :=
  match m._sampler with
  | none => .error mipGenNotInitMsg
  | some s => .ok s

/-- Method `MipGenerator.init(gpu)`: creates the linear-filtering sampler on
`gpu.device` (whose getter may throw). -/
def MipGenerator.init (m : MipGenerator) (gpu : Gpu) : MipGenerator × Except Err Unit :=
  match gpu.device with
  | .error e => (m, .error e)
  | .ok dev => ({ m with _sampler := some (createSampler dev "linear") }, .ok ())

/-- The `ProgramDescriptor` that `getProgram` passes to `Program.init`
(MipGenerator.ts lines 74-92). -/
def mipmapProgramDescriptor (format : Format) : ProgramDescriptor where
  shaderDescriptor := fun _ => ⟨"mipmap shader", mipmapShaderCode⟩
  pipelineDescriptor := fun module => ⟨"mipmap pipeline", "auto", module, "vs", "fs", format⟩

/-- Method `MipGenerator.getProgram(gpu, format)` (lines 64-96): return the
cached program when present; otherwise create a fresh `Program`, run its
`init` (on failure the exception propagates and the map is NOT written, since
`set` runs only after the awaited `init` returns), store it keyed by the
format and return it. -/
def MipGenerator.getProgram (m : MipGenerator) (gpu : Gpu) (format : Format) :
    Except Err Program × MipGenerator :=
  match mapGet m._programMap format with
  | some program => (.ok program, m)
  | none =>
    match Program.init Program.new gpu (mipmapProgramDescriptor format) with
    | (_, .error e) => (.error e, m)
    | (program, .ok ()) =>
      (.ok program, { m with _programMap := mapSet m._programMap format program })

/-- Handle to a GPU texture; the fields the repository reads are the
dimensions, format and `mipLevelCount` fixed by its descriptor, plus the
usage flags. -/
structure GPUTexture where
  label : Option String
  width : Nat
  height : Nat
  format : Format
  mipLevelCount : Nat
  usage : Nat
deriving DecidableEq, Repr

/-- Method `MipGenerator.generate(gpu, texture, mipLevelCount?)` (lines
174-215): first obtains (or builds and caches) the program for
`texture.format` — a failure there propagates before any encoder or pass
exists — then creates the command encoder on `gpu.device` and runs the
per-level loop (modelled by `generateLevels`), finally submitting one
command buffer.  The result carries the issued passes and the returned
`baseMipLevel`. -/
def MipGenerator.generate (m : MipGenerator) (gpu : Gpu) (texture : GPUTexture)
    (mipLevelCount? : Option Nat) : Except Err (List MipPass × Nat) × MipGenerator :=
  match m.getProgram gpu texture.format with
  | (.error e, m1) => (.error e, m1)
  | (.ok _, m1) =>
    match gpu.device with
    | .error e => (.error e, m1)
    | .ok _ => (.ok (generateLevels texture.width texture.height mipLevelCount?), m1)

/-! ## TextureLoader (src/unnamed/part_001, first half) -/

/-- Mask of GPUTextureUsage.TEXTURE_BINDING (WebGPU constant). -/
def GPUTextureUsage.TEXTURE_BINDING : Nat := 4

/-- Mask of GPUTextureUsage.COPY_DST (WebGPU constant). -/
def GPUTextureUsage.COPY_DST : Nat := 2

/-- Mask of GPUTextureUsage.RENDER_ATTACHMENT (WebGPU constant). -/
def GPUTextureUsage.RENDER_ATTACHMENT : Nat := 16

/-- One call to `queue.copyExternalImageToTexture`: the repository passes
`flipY: true`, the destination texture (destination mip level defaults to 0
in WebGPU) and the copy extent. -/
structure QueueCopyCall where
  flipY : Bool
  dstTexture : GPUTexture
  dstMipLevel : Nat
  copyWidth : Nat
  copyHeight : Nat
deriving DecidableEq, Repr

/-- Observable effects of `TextureLoader.createTexture` besides the returned
texture: the level-0 upload, whether `generate` was invoked, and whether that
invocation was awaited (line 53 has no `await`). -/
structure CreateTextureEffects where
  copied : Option QueueCopyCall
  generateInvoked : Bool
  generateAwaited : Bool
deriving DecidableEq, Repr

/-- State of the `TextureLoader` class. -/
structure TextureLoader where
  _mipGenerator : MipGenerator

/-- Constructor `new TextureLoader()`. -/
def TextureLoader.new : TextureLoader :=
  ⟨MipGenerator.new⟩

/-- Method `TextureLoader.init(gpu)`: delegates to `MipGenerator.init`. -/
def TextureLoader.init (tl : TextureLoader) (gpu : Gpu) :
    TextureLoader × Except Err Unit :=
  match tl._mipGenerator.init gpu with
  | (m, r) => (⟨m⟩, r)

/-- Method `TextureLoader.createTexture` (part_001 lines 28-57): allocates
the texture with `mipLevelCount = countMipLevels(size[0], size[1])` and usage
`TEXTURE_BINDING | COPY_DST | RENDER_ATTACHMENT`, copies the source into it
(level 0, `flipY: true`), then — guarded by the JS truthiness test
`if (texture.mipLevelCount)`, i.e. `mipLevelCount ≠ 0` — invokes
`generate(gpu, texture)` without awaiting it, and returns the texture. -/
def TextureLoader.createTexture (tl : TextureLoader) (gpu : Gpu)
    (label : Option String) (size : Nat × Nat) (format : Format) :
    Except Err (GPUTexture × CreateTextureEffects) × TextureLoader :=
  match gpu.device with
  | .error e => (.error e, tl)
  | .ok _ =>
    let texture : GPUTexture :=
      { label := label, width := size.1, height := size.2, format := format,
        mipLevelCount := countMipLevels [size.1, size.2],
        usage :=
          GPUTextureUsage.TEXTURE_BINDING |||
          GPUTextureUsage.COPY_DST |||
          GPUTextureUsage.RENDER_ATTACHMENT }
    let copied := some (⟨true, texture, 0, size.1, size.2⟩ : QueueCopyCall)
    if texture.mipLevelCount ≠ 0 then
      (.ok (texture, ⟨copied, true, false⟩),
        ⟨(tl._mipGenerator.generate gpu texture none).2⟩)
    else
      (.ok (texture, ⟨copied, false, false⟩), tl)

/-! ## Test fixtures (concrete platform/device instances used by witnesses) -/

/-- A concrete device supporting the two formats the repository uses. -/
def testDevice : GPUDevice :=
  ⟨"test device", ⟨4096⟩, ["rgba8unorm", "bgra8unorm"]⟩

/-- A concrete adapter handle. -/
def testAdapter : GPUAdapter := ⟨0⟩

/-- A Gpu whose init already succeeded (both fields populated). -/
def testGpuReady : Gpu :=
  ⟨"test", some testAdapter, some testDevice⟩

/-- A platform on which every acquisition succeeds. -/
def testPlatform : Platform :=
  ⟨some testAdapter, fun _ _ => some testDevice, some ⟨1⟩, "bgra8unorm"⟩

/-- A platform reporting no adapter. -/
def platNoAdapter : Platform :=
  ⟨none, fun _ _ => none, none, "bgra8unorm"⟩

/-- A platform with an adapter but failing device creation. -/
def platNoDevice : Platform :=
  ⟨some testAdapter, fun _ _ => none, none, "bgra8unorm"⟩

/-- Well-formedness of the program cache: every cached entry was compiled for
the format it is keyed under (its pipeline's colour target is that format).
It holds for the empty cache and is preserved by `getProgram`. -/
def cacheWellFormed (m : MipGenerator) : Prop :=
  ∀ f p, mapGet m._programMap f = some p →
    ∃ pl, p._pipeline = some pl ∧ pl.targetFormat = f

/-- The program `getProgram` builds and caches for a supported format. -/
def mipProgramFor (f : Format) : Program :=
  ⟨some ⟨"mipmap shader", mipmapShaderCode⟩,
    some ⟨"mipmap pipeline", ⟨"mipmap shader", mipmapShaderCode⟩, f⟩⟩

/-- The generator state after caching the program for "rgba8unorm". -/
def cacheAfterA : MipGenerator :=
  ⟨none, [("rgba8unorm", mipProgramFor "rgba8unorm")]⟩

/-- The generator state after also caching the program for "bgra8unorm". -/
def cacheAfterAB : MipGenerator :=
  ⟨none, [("rgba8unorm", mipProgramFor "rgba8unorm"),
    ("bgra8unorm", mipProgramFor "bgra8unorm")]⟩

/-! ## Helper lemmas -/

/-- The value `generate` returns is the starting level plus the number of
passes the loop recorded. -/
theorem genLoop_ret (c l w h : Nat) : (genLoop c l w h).2 = l + (genLoop c l w h).1.length := by
  induction l, w, h using genLoop.induct c with
  | case1 l w h hc ih =>
    rw [genLoop, if_pos hc]
    simp only [List.length_cons]
    omega
  | case2 l w h hc =>
    rw [genLoop, if_neg hc]
    simp

/-- Lookup after a map update: the written key reads back the new program,
every other key is unchanged. -/
theorem mapGet_mapSet (m : List (Format × Program)) (f f' : Format) (p : Program) :
    mapGet (mapSet m f p) f' = if f' = f then some p else mapGet m f' := by
  induction m with
  | nil =>
    by_cases h : f = f'
    · subst h; simp [mapSet, mapGet]
    · simp [mapSet, mapGet, h, Ne.symm h]
  | cons e rest ih =>
    obtain ⟨g, q⟩ := e
    by_cases hg : g = f
    · subst hg
      by_cases h : g = f'
      · subst h; simp [mapSet, mapGet]
      · simp [mapSet, mapGet, h, Ne.symm h]
    · by_cases h1 : g = f'
      · subst h1
        simp [mapSet, mapGet, hg, Ne.symm hg]
      · by_cases h2 : f' = f
        · subst h2
          simp [mapSet, mapGet, hg, h1, ih]
        · simp [mapSet, mapGet, hg, h1, h2, ih]

/-- A successfully created pipeline targets the requested format. -/
theorem createRenderPipeline_ok {dev : GPUDevice} {d : GPURenderPipelineDescriptor}
    {pl : GPURenderPipeline} (h : createRenderPipeline dev d = .ok pl) :
    pl.targetFormat = d.targetFormat := by
  simp only [createRenderPipeline] at h
  split at h
  · cases h
    rfl
  · cases h

/-- A successful `Program.init` on the mipmap descriptor for `f` produces a
program whose pipeline targets `f`. -/
theorem program_init_mipmap_ok {gpu : Gpu} {f : Format} {p : Program}
    (h : Program.init Program.new gpu (mipmapProgramDescriptor f) = (p, .ok ())) :
    ∃ pl, p._pipeline = some pl ∧ pl.targetFormat = f := by
  simp only [Program.init] at h
  split at h
  · simp at h
  next dev hdev =>
    split at h
    · simp at h
    next pl hpl =>
      simp only [Prod.mk.injEq] at h
      obtain ⟨hp, -⟩ := h
      subst hp
      exact ⟨pl, rfl, createRenderPipeline_ok hpl⟩

/-- The empty cache of a fresh generator is well formed. -/
theorem cacheWellFormed_new : cacheWellFormed MipGenerator.new := by
  intro f p h
  simp [MipGenerator.new, mapGet] at h

/-- A program returned by `getProgram` for format `f` (from a well-formed
cache) has a pipeline targeting `f`. -/
theorem getProgram_ok_pipeline {m : MipGenerator} {gpu : Gpu} {f : Format}
    {p : Program} {m' : MipGenerator} (hwf : cacheWellFormed m)
    (h : m.getProgram gpu f = (.ok p, m')) :
    ∃ pl, p._pipeline = some pl ∧ pl.targetFormat = f := by
  simp only [MipGenerator.getProgram] at h
  split at h
  next q hq =>
    simp only [Prod.mk.injEq, Except.ok.injEq] at h
    obtain ⟨hp, -⟩ := h
    subst hp
    exact hwf f q hq
  next hq =>
    split at h
    next e hinit => simp at h
    next prog hinit =>
      simp only [Prod.mk.injEq, Except.ok.injEq] at h
      obtain ⟨hp, -⟩ := h
      subst hp
      exact program_init_mipmap_ok hinit

/-- Cache well-formedness is preserved by `getProgram`. -/
theorem cacheWellFormed_getProgram {m : MipGenerator} (gpu : Gpu) (f : Format)
    (hwf : cacheWellFormed m) : cacheWellFormed ((m.getProgram gpu f).2) := by
  simp only [MipGenerator.getProgram]
  split
  next q hq => exact hwf
  next hq =>
    split
    next e hinit => exact hwf
    next prog hinit =>
      intro g p hg
      simp only [mapGet_mapSet] at hg
      by_cases hgf : g = f
      · rw [if_pos hgf] at hg
        cases hg
        subst hgf
        exact program_init_mipmap_ok hinit
      · rw [if_neg hgf] at hg
        exact hwf g p hg

/-! ## Claim theorems -/

/-- Claim C2: `countMipLevels` returns `floor(1 + log2(max(dims)))` for
positive dimensions — characterised by `2^(c-1) ≤ max < 2^c` with `c ≥ 1` —
with `countMipLevels(1,1) = 1`, `countMipLevels(256,256) = 9`,
`countMipLevels(300,150) = 9`, and monotone non-decreasing in the max of the
dimensions. -/
theorem countMipLevels_floor_log :
    countMipLevels [1, 1] = 1 ∧
    countMipLevels [256, 256] = 9 ∧
    countMipLevels [300, 150] = 9 ∧
    (∀ sizes : List Nat, 1 ≤ maxSize sizes →
      1 ≤ countMipLevels sizes ∧
      2 ^ (countMipLevels sizes - 1) ≤ maxSize sizes ∧
      maxSize sizes < 2 ^ countMipLevels sizes) ∧
    (∀ s t : List Nat, maxSize s ≤ maxSize t → countMipLevels s ≤ countMipLevels t) := by
  refine ⟨?_, ?_, ?_, ?_, ?_⟩
  · simp [countMipLevels, maxSize, Nat.log_one_right]
  · simp [countMipLevels, maxSize]
    rw [show Nat.log 2 256 = 8 from
      Nat.log_eq_of_pow_le_of_lt_pow (by norm_num) (by norm_num)]
  · simp [countMipLevels, maxSize]
    rw [show Nat.log 2 300 = 8 from
      Nat.log_eq_of_pow_le_of_lt_pow (by norm_num) (by norm_num)]
  · intro sizes hs
    have hne : maxSize sizes ≠ 0 := by omega
    simp only [countMipLevels, hne, if_false]
    refine ⟨by omega, ?_, ?_⟩
    · simpa using Nat.pow_log_le_self 2 hne
    · have := Nat.lt_pow_succ_log_self (b := 2) (by norm_num) (maxSize sizes)
      simpa [Nat.add_comm] using this
  · intro s t hst
    by_cases h0 : maxSize s = 0
    · simp [countMipLevels, h0]
    · have h0t : maxSize t ≠ 0 := by omega
      simp only [countMipLevels, h0, h0t, if_false]
      exact Nat.add_le_add_left (Nat.log_mono_right hst) 1

/-- Witness for C2 at the concrete inputs `[300,150]` and `[2,2]`. -/
theorem countMipLevels_floor_log_witness :
    (1 ≤ maxSize [300, 150] ∧
      1 ≤ countMipLevels [300, 150] ∧
      2 ^ (countMipLevels [300, 150] - 1) ≤ maxSize [300, 150] ∧
      maxSize [300, 150] < 2 ^ countMipLevels [300, 150]) ∧
    (maxSize [2, 2] ≤ maxSize [300, 150] ∧
      countMipLevels [2, 2] ≤ countMipLevels [300, 150]) :=
  ⟨⟨by decide, countMipLevels_floor_log.2.2.2.1 [300, 150] (by decide)⟩,
    ⟨by decide, countMipLevels_floor_log.2.2.2.2 [2, 2] [300, 150] (by decide)⟩⟩

/-- Claim C1 counterexample: a 4x4 texture with requested `mipLevelCount = 2`
executes 2 passes, more than the `levelCount - 1 = 1` passes the claim allows
— the source guard is `(level < count && width > 1) || height > 1`, not
`(level < count-1) && (width > 1 || height > 1)`. -/
theorem generate_exceeds_requested_levelCount :
    (generateLevels 4 4 (some 2)).1.length = 2 ∧
    ¬((generateLevels 4 4 (some 2)).1.length ≤ 2 - 1) := by
  have h : generateLevels 4 4 (some 2) = ([⟨0, 1, 2, 2⟩, ⟨1, 2, 1, 1⟩], 2) := by
    simp [generateLevels, genLoop, genCond]
  rw [h]
  simp

/-- Claim C1 amended: the per-level loop of `generate` continues exactly
while `(level < levelCount AND width > 1) OR height > 1` — so it can run past
`levelCount - 1` passes while the height still exceeds 1 — and the returned
value is the number of levels actually generated. -/
theorem generate_loop_guard_spec :
    (∀ mipLevelCount baseMipLevel width height : Nat,
      genLoop mipLevelCount baseMipLevel width height =
        if (baseMipLevel < mipLevelCount ∧ 1 < width) ∨ 1 < height then
          (⟨baseMipLevel, baseMipLevel + 1, max 1 (width / 2), max 1 (height / 2)⟩ ::
              (genLoop mipLevelCount (baseMipLevel + 1)
                (max 1 (width / 2)) (max 1 (height / 2))).1,
            (genLoop mipLevelCount (baseMipLevel + 1)
              (max 1 (width / 2)) (max 1 (height / 2))).2)
        else ([], baseMipLevel)) ∧
    (∀ (width height : Nat) (mlc? : Option Nat),
      (generateLevels width height mlc?).2 = (generateLevels width height mlc?).1.length) := by
  constructor
  · intro c l w h
    rw [genLoop]
    by_cases hc : genCond c l w h
    · rw [if_pos hc, if_pos (by simpa [genCond] using hc)]
    · rw [if_neg hc, if_neg (by simpa [genCond] using hc)]
  · intro w h mlc?
    simpa using genLoop_ret (mlc?.getD (countMipLevels [w, h])) 0 w h

/-- Claim C3: a 256x256 texture with the default level count yields the
9-level chain (base plus 8 generated levels), level `k` having dimensions
`max(1, 256 / 2^k)` on each axis; and a 256x1 texture stops once both axes
reach 1 (here after 8 passes) even when the requested count (20) would allow
more, since the guard is false whenever both dimensions are 1. -/
theorem generate_256_mip_chain :
    countMipLevels [256, 256] = 9 ∧
    (generateLevels 256 256 none).1.length + 1 = 9 ∧
    (generateLevels 256 256 none).1.map (fun p => (p.dstLevel, p.dstWidth, p.dstHeight)) =
      (List.range 8).map (fun k => (k + 1, max 1 (256 / 2 ^ (k + 1)), max 1 (256 / 2 ^ (k + 1)))) ∧
    (generateLevels 256 1 (some 20)).1.length = 8 ∧
    (∀ mipLevelCount baseMipLevel : Nat, genCond mipLevelCount baseMipLevel 1 1 = false) := by
  have h9 : countMipLevels [256, 256] = 9 := by
    simp [countMipLevels, maxSize]
    rw [show Nat.log 2 256 = 8 from
      Nat.log_eq_of_pow_le_of_lt_pow (by norm_num) (by norm_num)]
  have hlist : generateLevels 256 256 none =
      ([⟨0, 1, 128, 128⟩, ⟨1, 2, 64, 64⟩, ⟨2, 3, 32, 32⟩, ⟨3, 4, 16, 16⟩,
        ⟨4, 5, 8, 8⟩, ⟨5, 6, 4, 4⟩, ⟨6, 7, 2, 2⟩, ⟨7, 8, 1, 1⟩], 8) := by
    simp [generateLevels, h9]
    simp [genLoop, genCond]
  have hflat : generateLevels 256 1 (some 20) =
      ([⟨0, 1, 128, 1⟩, ⟨1, 2, 64, 1⟩, ⟨2, 3, 32, 1⟩, ⟨3, 4, 16, 1⟩,
        ⟨4, 5, 8, 1⟩, ⟨5, 6, 4, 1⟩, ⟨6, 7, 2, 1⟩, ⟨7, 8, 1, 1⟩], 8) := by
    simp [generateLevels, genLoop, genCond]
  refine ⟨h9, by rw [hlist]; rfl, by rw [hlist]; rfl, by rw [hflat]; rfl, ?_⟩
  intro c l
  simp [genCond]

/-- Claim C4 counterexample: a 1x1 texture has computed level count 1, which
is not greater than 1, yet `createTexture` still invokes `generate` — the
source guard is the truthiness test `if (texture.mipLevelCount)`, i.e.
`mipLevelCount != 0`, not `> 1`. -/
theorem createTexture_one_level_counterexample :
    ((TextureLoader.new.createTexture testGpuReady (some "t") (1, 1) "rgba8unorm").1.toOption.map
      fun r => (r.1.mipLevelCount, r.2.generateInvoked)) = some (1, true) ∧
    ¬(1 : Nat) > 1 := by
  constructor
  · have h1 : countMipLevels [1, 1] = 1 := by
      simp [countMipLevels, maxSize, Nat.log_one_right]
    simp [TextureLoader.createTexture, TextureLoader.new, testGpuReady, Gpu.device, h1,
      Except.toOption]
  · decide

/-- Claim C4 amended: for every texture spec (with a ready device),
`createTexture` allocates the texture with `mipLevelCount =
countMipLevels(size)` and usage `TEXTURE_BINDING | COPY_DST |
RENDER_ATTACHMENT`, copies the source into level 0, invokes the Mip
Generator's `generate` on the new texture if and only if the computed level
count is nonzero (not: greater than one), and returns the texture without
awaiting generation. -/
theorem createTexture_spec :
    ∀ (tl : TextureLoader) (gpu : Gpu) (dev : GPUDevice) (label : Option String)
      (size : Nat × Nat) (format : Format),
      gpu.device = .ok dev →
      ∃ (texture : GPUTexture) (fx : CreateTextureEffects) (tl' : TextureLoader),
        tl.createTexture gpu label size format = (.ok (texture, fx), tl') ∧
        texture.width = size.1 ∧ texture.height = size.2 ∧ texture.format = format ∧
        texture.mipLevelCount = countMipLevels [size.1, size.2] ∧
        texture.usage =
          (GPUTextureUsage.TEXTURE_BINDING |||
            GPUTextureUsage.COPY_DST |||
            GPUTextureUsage.RENDER_ATTACHMENT) ∧
        fx.copied = some ⟨true, texture, 0, size.1, size.2⟩ ∧
        (fx.generateInvoked = true ↔ countMipLevels [size.1, size.2] ≠ 0) ∧
        fx.generateAwaited = false ∧
        (fx.generateInvoked = true →
          tl'._mipGenerator = (tl._mipGenerator.generate gpu texture none).2) := by
  intro tl gpu dev label size format hdev
  set tex : GPUTexture :=
    { label := label, width := size.1, height := size.2, format := format,
      mipLevelCount := countMipLevels [size.1, size.2],
      usage :=
        GPUTextureUsage.TEXTURE_BINDING |||
        GPUTextureUsage.COPY_DST |||
        GPUTextureUsage.RENDER_ATTACHMENT } with htex
  by_cases h0 : countMipLevels [size.1, size.2] ≠ 0
  · refine ⟨tex, ⟨some ⟨true, tex, 0, size.1, size.2⟩, true, false⟩,
      ⟨(tl._mipGenerator.generate gpu tex none).2⟩,
      ?_, rfl, rfl, rfl, rfl, rfl, rfl, by simpa using h0, rfl, fun _ => rfl⟩
    simp only [TextureLoader.createTexture, hdev, htex]
    simp [h0]
  · refine ⟨tex, ⟨some ⟨true, tex, 0, size.1, size.2⟩, false, false⟩, tl,
      ?_, rfl, rfl, rfl, rfl, rfl, rfl, by simpa using h0, rfl, by intro h; simp at h⟩
    simp only [TextureLoader.createTexture, hdev, htex]
    simp [h0]

/-- Witness for C4 amended at a concrete ready Gpu and an 8x4 texture. -/
theorem createTexture_spec_witness :
    testGpuReady.device = .ok testDevice ∧
    (∃ (texture : GPUTexture) (fx : CreateTextureEffects) (tl' : TextureLoader),
      TextureLoader.new.createTexture testGpuReady (some "w") (8, 4) "rgba8unorm" =
        (.ok (texture, fx), tl') ∧
      texture.width = (8, 4).1 ∧ texture.height = (8, 4).2 ∧ texture.format = "rgba8unorm" ∧
      texture.mipLevelCount = countMipLevels [(8, 4).1, (8, 4).2] ∧
      texture.usage =
        (GPUTextureUsage.TEXTURE_BINDING |||
          GPUTextureUsage.COPY_DST |||
          GPUTextureUsage.RENDER_ATTACHMENT) ∧
      fx.copied = some ⟨true, texture, 0, (8, 4).1, (8, 4).2⟩ ∧
      (fx.generateInvoked = true ↔ countMipLevels [(8, 4).1, (8, 4).2] ≠ 0) ∧
      fx.generateAwaited = false ∧
      (fx.generateInvoked = true →
        tl'._mipGenerator =
          (TextureLoader.new._mipGenerator.generate testGpuReady texture none).2)) :=
  ⟨rfl, createTexture_spec TextureLoader.new testGpuReady testDevice (some "w")
    (8, 4) "rgba8unorm" rfl⟩

/-- Claim C5: when no pipeline can be built for the texture's format (and
none is cached for it), `getProgram` fails with the unsupported-format error
and leaves the program cache unchanged, and `generate` fails the same way
before any render pass is recorded, also leaving the cache unchanged. -/
theorem unsupported_format_atomic :
    ∀ (m : MipGenerator) (gpu : Gpu) (dev : GPUDevice) (texture : GPUTexture),
      gpu._device = some dev →
      texture.format ∉ dev.renderableFormats →
      mapGet m._programMap texture.format = none →
      m.getProgram gpu texture.format =
        (.error ("Unsupported format: " ++ texture.format), m) ∧
      m.generate gpu texture none =
        (.error ("Unsupported format: " ++ texture.format), m) := by
  intro m gpu dev texture hdev hfmt hmap
  have hprog : m.getProgram gpu texture.format =
      (.error ("Unsupported format: " ++ texture.format), m) := by
    simp only [MipGenerator.getProgram, hmap]
    simp [Program.init, Gpu.device, hdev, createRenderPipeline, mipmapProgramDescriptor, hfmt]
  refine ⟨hprog, ?_⟩
  simp only [MipGenerator.generate, hprog]

/-- Witness for C5 at a device that cannot render "r32float". -/
theorem unsupported_format_atomic_witness :
    testGpuReady._device = some testDevice ∧
    ("r32float" : Format) ∉ testDevice.renderableFormats ∧
    mapGet MipGenerator.new._programMap "r32float" = none ∧
    (MipGenerator.new.getProgram testGpuReady "r32float" =
      (.error ("Unsupported format: " ++ "r32float"), MipGenerator.new) ∧
     MipGenerator.new.generate testGpuReady ⟨none, 16, 16, "r32float", 5, 22⟩ none =
      (.error ("Unsupported format: " ++ "r32float"), MipGenerator.new)) :=
  ⟨rfl, by decide, rfl,
    unsupported_format_atomic MipGenerator.new testGpuReady testDevice
      ⟨none, 16, 16, "r32float", 5, 22⟩ rfl (by decide) rfl⟩

/-- Claim C6: a second `getProgram` call for the same format returns the
identical cached program and the identical generator state (no compilation);
calls for two distinct formats (from a well-formed cache) return distinct
program instances; and `getProgram` never evicts an existing cache entry. -/
theorem getProgram_cache_spec :
    (∀ (m : MipGenerator) (gpu : Gpu) (f : Format),
      (m.getProgram gpu f).1.isOk = true →
      ((m.getProgram gpu f).2).getProgram gpu f = m.getProgram gpu f) ∧
    (∀ (m : MipGenerator) (gpu gpu' : Gpu) (f g : Format)
      (pf pg : Program) (mf mg : MipGenerator),
      cacheWellFormed m → f ≠ g →
      m.getProgram gpu f = (.ok pf, mf) →
      mf.getProgram gpu' g = (.ok pg, mg) →
      pf ≠ pg) ∧
    (∀ (m : MipGenerator) (gpu : Gpu) (f f' : Format) (p : Program),
      mapGet m._programMap f' = some p →
      mapGet ((m.getProgram gpu f).2)._programMap f' = some p) := by
  refine ⟨?_, ?_, ?_⟩
  · intro m gpu f hok
    cases hm : mapGet m._programMap f with
    | some q =>
      have h1 : m.getProgram gpu f = (.ok q, m) := by
        simp only [MipGenerator.getProgram, hm]
      rw [h1]
      exact h1
    | none =>
      cases hinit : Program.init Program.new gpu (mipmapProgramDescriptor f) with
      | mk prog r =>
        cases r with
        | error e =>
          have h1 : m.getProgram gpu f = (.error e, m) := by
            simp only [MipGenerator.getProgram, hm, hinit]
          rw [h1] at hok
          simp [Except.isOk, Except.toBool] at hok
        | ok u =>
          cases u
          have h1 : m.getProgram gpu f =
              (.ok prog, { m with _programMap := mapSet m._programMap f prog }) := by
            simp only [MipGenerator.getProgram, hm, hinit]
          rw [h1]
          simp [MipGenerator.getProgram, mapGet_mapSet]
  · intro m gpu gpu' f g pf pg mf mg hwf hfg h1 h2 heq
    obtain ⟨pl1, hpl1, hf1⟩ := getProgram_ok_pipeline hwf h1
    have hwfmf : cacheWellFormed mf := by
      have h := cacheWellFormed_getProgram gpu f hwf
      rwa [h1] at h
    obtain ⟨pl2, hpl2, hf2⟩ := getProgram_ok_pipeline hwfmf h2
    rw [heq, hpl2] at hpl1
    cases hpl1
    exact hfg (hf1 ▸ hf2 ▸ rfl)
  · intro m gpu f f' p hp
    cases hm : mapGet m._programMap f with
    | some q =>
      simp only [MipGenerator.getProgram, hm]
      exact hp
    | none =>
      cases hinit : Program.init Program.new gpu (mipmapProgramDescriptor f) with
      | mk prog r =>
        cases r with
        | error e =>
          simp only [MipGenerator.getProgram, hm, hinit]
          exact hp
        | ok u =>
          cases u
          simp only [MipGenerator.getProgram, hm, hinit, mapGet_mapSet]
          have hne : f' ≠ f := by
            intro h
            subst h
            rw [hp] at hm
            cases hm
          rw [if_neg hne]
          exact hp

/-- Witness for C6 on a fresh generator and the formats "rgba8unorm" and "bgra8unorm". -/
theorem getProgram_cache_spec_witness :
    ((MipGenerator.new.getProgram testGpuReady "rgba8unorm").1.isOk = true ∧
      ((MipGenerator.new.getProgram testGpuReady "rgba8unorm").2).getProgram
          testGpuReady "rgba8unorm" =
        MipGenerator.new.getProgram testGpuReady "rgba8unorm") ∧
    (cacheWellFormed MipGenerator.new ∧ ("rgba8unorm" : Format) ≠ "bgra8unorm" ∧
      MipGenerator.new.getProgram testGpuReady "rgba8unorm" =
        (.ok (mipProgramFor "rgba8unorm"), cacheAfterA) ∧
      cacheAfterA.getProgram testGpuReady "bgra8unorm" =
        (.ok (mipProgramFor "bgra8unorm"), cacheAfterAB) ∧
      mipProgramFor "rgba8unorm" ≠ mipProgramFor "bgra8unorm") ∧
    (mapGet cacheAfterA._programMap "rgba8unorm" = some (mipProgramFor "rgba8unorm") ∧
      mapGet ((cacheAfterA.getProgram testGpuReady "bgra8unorm").2)._programMap "rgba8unorm" =
        some (mipProgramFor "rgba8unorm")) :=
  ⟨⟨rfl, getProgram_cache_spec.1 MipGenerator.new testGpuReady "rgba8unorm" rfl⟩,
    ⟨cacheWellFormed_new, by decide, rfl, rfl,
      getProgram_cache_spec.2.1 MipGenerator.new testGpuReady testGpuReady
        "rgba8unorm" "bgra8unorm" (mipProgramFor "rgba8unorm") (mipProgramFor "bgra8unorm")
        cacheAfterA cacheAfterAB cacheWellFormed_new (by decide) rfl rfl⟩,
    ⟨rfl, getProgram_cache_spec.2.2 cacheAfterA testGpuReady "bgra8unorm" "rgba8unorm"
      (mipProgramFor "rgba8unorm") rfl⟩⟩

/-- Claim C7: each state accessor (`Gpu.adapter`, `Gpu.device`,
`Surface.context`, `Surface.format`, `Program.shaderModule`,
`Program.pipeline`, `MipGenerator.sampler`) fails with its owning class's
not-initialized error on the freshly constructed state, and returns a valid
handle on every state produced by a successful `init`. -/
theorem accessor_init_guards :
    (∀ label, (Gpu.new label).adapter = .error gpuNotInitMsg ∧
      (Gpu.new label).device = .error gpuNotInitMsg) ∧
    (∀ (g : Gpu) (plat : Platform), (g.init plat).2 = .ok () →
      (∃ a, ((g.init plat).1).adapter = .ok a) ∧ ∃ d, ((g.init plat).1).device = .ok d) ∧
    (∀ w h, (Surface.new w h).context = .error surfaceNotInitMsg ∧
      (Surface.new w h).format = .error surfaceNotInitMsg) ∧
    (∀ (s : Surface) (gpu : Gpu) (plat : Platform) (ow oh : Nat),
      (s.init gpu plat ow oh).2 = .ok () →
      (∃ c, ((s.init gpu plat ow oh).1).context = .ok c) ∧
      ∃ f, ((s.init gpu plat ow oh).1).format = .ok f) ∧
    (Program.new.shaderModule = .error programNotInitMsg ∧
      Program.new.pipeline = .error programNotInitMsg) ∧
    (∀ (p : Program) (gpu : Gpu) (d : ProgramDescriptor),
      (p.init gpu d).2 = .ok () →
      (∃ sm, ((p.init gpu d).1).shaderModule = .ok sm) ∧
      ∃ pl, ((p.init gpu d).1).pipeline = .ok pl) ∧
    (MipGenerator.new.sampler = .error mipGenNotInitMsg) ∧
    (∀ (m : MipGenerator) (gpu : Gpu), (m.init gpu).2 = .ok () →
      ∃ sp, ((m.init gpu).1).sampler = .ok sp) := by
  refine ⟨fun label => ⟨rfl, rfl⟩, ?_, fun w h => ⟨rfl, rfl⟩, ?_, ⟨rfl, rfl⟩, ?_, rfl, ?_⟩
  · intro g plat hok
    cases ha : plat.requestAdapter with
    | none => simp only [Gpu.init, ha] at hok; exact Except.noConfusion hok
    | some a =>
      cases hd : plat.requestDevice a (g.label ++ " device") with
      | none => simp only [Gpu.init, ha, hd] at hok; exact Except.noConfusion hok
      | some d =>
        simp only [Gpu.init, ha, hd]
        exact ⟨⟨a, rfl⟩, d, rfl⟩
  · intro s gpu plat ow oh hok
    cases hc : plat.getContext with
    | none => simp only [Surface.init, hc] at hok; exact Except.noConfusion hok
    | some ctx =>
      cases hd : gpu.device with
      | error e => simp only [Surface.init, hc, hd] at hok; exact Except.noConfusion hok
      | ok dev =>
        simp only [Surface.init, hc, hd]
        exact ⟨⟨ctx, rfl⟩, plat.getPreferredCanvasFormat, rfl⟩
  · intro p gpu d hok
    cases hd : gpu.device with
    | error e => simp only [Program.init, hd] at hok; exact Except.noConfusion hok
    | ok dev =>
      cases hpl : createRenderPipeline dev
          (d.pipelineDescriptor (createShaderModule dev (d.shaderDescriptor ()))) with
      | error e => simp only [Program.init, hd, hpl] at hok; exact Except.noConfusion hok
      | ok pl =>
        simp only [Program.init, hd, hpl]
        exact ⟨⟨createShaderModule dev (d.shaderDescriptor ()), rfl⟩, pl, rfl⟩
  · intro m gpu hok
    cases hd : gpu.device with
    | error e => simp only [MipGenerator.init, hd] at hok; exact Except.noConfusion hok
    | ok dev =>
      simp only [MipGenerator.init, hd]
      exact ⟨createSampler dev "linear", rfl⟩

/-- Witness for C7: successful init of each component on a concrete platform. -/
theorem accessor_init_guards_witness :
    (((Gpu.new "e").init testPlatform).2 = .ok () ∧
      (∃ a, (((Gpu.new "e").init testPlatform).1).adapter = .ok a) ∧
      (∃ d, (((Gpu.new "e").init testPlatform).1).device = .ok d)) ∧
    (((Surface.new 1 1).init testGpuReady testPlatform 4 3).2 = .ok () ∧
      (∃ c, (((Surface.new 1 1).init testGpuReady testPlatform 4 3).1).context = .ok c) ∧
      (∃ f, (((Surface.new 1 1).init testGpuReady testPlatform 4 3).1).format = .ok f)) ∧
    ((Program.new.init testGpuReady (mipmapProgramDescriptor "rgba8unorm")).2 = .ok () ∧
      (∃ sm, ((Program.new.init testGpuReady (mipmapProgramDescriptor "rgba8unorm")).1).shaderModule = .ok sm) ∧
      (∃ pl, ((Program.new.init testGpuReady (mipmapProgramDescriptor "rgba8unorm")).1).pipeline = .ok pl)) ∧
    ((MipGenerator.new.init testGpuReady).2 = .ok () ∧
      ∃ sp, ((MipGenerator.new.init testGpuReady).1).sampler = .ok sp) :=
  ⟨⟨rfl, accessor_init_guards.2.1 (Gpu.new "e") testPlatform rfl⟩,
    ⟨rfl, accessor_init_guards.2.2.2.1 (Surface.new 1 1) testGpuReady testPlatform 4 3 rfl⟩,
    ⟨rfl, accessor_init_guards.2.2.2.2.2.1 Program.new testGpuReady
      (mipmapProgramDescriptor "rgba8unorm") rfl⟩,
    ⟨rfl, accessor_init_guards.2.2.2.2.2.2.2 MipGenerator.new testGpuReady rfl⟩⟩

/-- Claim C8 counterexample: the no-adapter failure and the
device-creation failure of `Gpu.init` throw the identical error (message
"browser does not support WebGPU" at both sites), so the two failure causes
are not distinguishable by the caller. -/
theorem gpu_init_errors_indistinguishable :
    ((Gpu.new "a").init platNoAdapter).2 = .error noWebGpuMsg ∧
    ((Gpu.new "a").init platNoDevice).2 = .error noWebGpuMsg ∧
    ((Gpu.new "a").init platNoAdapter).2 = ((Gpu.new "a").init platNoDevice).2 :=
  ⟨rfl, rfl, rfl⟩

/-- Claim C8 amended: `Gpu.init` requests an adapter and then a device from
that adapter; it throws when the platform reports no adapter and when device
creation fails, but with the same error in both cases (the causes are not
distinguishable); `ready()` returns true exactly when both acquisitions
succeeded. -/
theorem gpu_init_spec :
    ∀ (g : Gpu) (plat : Platform),
      (plat.requestAdapter = none →
        (g.init plat).2 = .error noWebGpuMsg ∧ (g.init plat).1.ready = false) ∧
      (∀ a, plat.requestAdapter = some a →
        (g.init plat).1._adapter = some a ∧
        (g.init plat).1._device = plat.requestDevice a (g.label ++ " device") ∧
        (plat.requestDevice a (g.label ++ " device") = none →
          (g.init plat).2 = .error noWebGpuMsg ∧ (g.init plat).1.ready = false)) ∧
      ((g.init plat).2 = .ok () ↔ (g.init plat).1.ready = true) := by
  intro g plat
  refine ⟨?_, ?_, ?_⟩
  · intro ha
    simp [Gpu.init, ha, Gpu.ready]
  · intro a ha
    cases hd : plat.requestDevice a (g.label ++ " device") with
    | none => simp [Gpu.init, ha, hd, Gpu.ready]
    | some dev => simp [Gpu.init, ha, hd, Gpu.ready]
  · cases ha : plat.requestAdapter with
    | none => simp [Gpu.init, ha, Gpu.ready]
    | some a =>
      cases hd : plat.requestDevice a (g.label ++ " device") with
      | none => simp [Gpu.init, ha, hd, Gpu.ready]
      | some dev => simp [Gpu.init, ha, hd, Gpu.ready]

/-- Witness for C8 amended on the two failing platforms. -/
theorem gpu_init_spec_witness :
    (platNoAdapter.requestAdapter = none ∧
      ((Gpu.new "w").init platNoAdapter).2 = .error noWebGpuMsg ∧
      ((Gpu.new "w").init platNoAdapter).1.ready = false) ∧
    (platNoDevice.requestAdapter = some testAdapter ∧
      ((Gpu.new "w").init platNoDevice).1._adapter = some testAdapter ∧
      ((Gpu.new "w").init platNoDevice).1._device =
        platNoDevice.requestDevice testAdapter ((Gpu.new "w").label ++ " device") ∧
      (platNoDevice.requestDevice testAdapter ((Gpu.new "w").label ++ " device") = none →
        ((Gpu.new "w").init platNoDevice).2 = .error noWebGpuMsg ∧
        ((Gpu.new "w").init platNoDevice).1.ready = false)) :=
  ⟨⟨rfl, (gpu_init_spec (Gpu.new "w") platNoAdapter).1 rfl⟩,
    ⟨rfl, (gpu_init_spec (Gpu.new "w") platNoDevice).2.1 testAdapter rfl⟩⟩

/-- Claim C9: after a resize event the stored canvas dimensions lie in
`[1, maxTextureDimension2D]` on each axis; a reported 5000x5000 under limit
4096 is stored as 4096x4096, and a reported 0 is stored as 1. -/
theorem resize_clamp_spec :
    ∀ (s : Surface) (dev : GPUDevice) (inlineSize blockSize : Nat),
      (1 ≤ dev.limits.maxTextureDimension2D →
        1 ≤ (s.onResizeEvent dev inlineSize blockSize).canvasWidth ∧
        (s.onResizeEvent dev inlineSize blockSize).canvasWidth ≤
          dev.limits.maxTextureDimension2D ∧
        1 ≤ (s.onResizeEvent dev inlineSize blockSize).canvasHeight ∧
        (s.onResizeEvent dev inlineSize blockSize).canvasHeight ≤
          dev.limits.maxTextureDimension2D) ∧
      (dev.limits.maxTextureDimension2D = 4096 → inlineSize = 5000 → blockSize = 5000 →
        (s.onResizeEvent dev inlineSize blockSize).canvasWidth = 4096 ∧
        (s.onResizeEvent dev inlineSize blockSize).canvasHeight = 4096) ∧
      (inlineSize = 0 → (s.onResizeEvent dev inlineSize blockSize).canvasWidth = 1) ∧
      (blockSize = 0 → (s.onResizeEvent dev inlineSize blockSize).canvasHeight = 1) := by
  intro s dev inlineSize blockSize
  refine ⟨?_, ?_, ?_, ?_⟩
  · intro hlim
    simp only [Surface.onResizeEvent]
    omega
  · intro hlim hw hb
    subst hw hb
    simp only [Surface.onResizeEvent, hlim]
    omega
  · intro hw
    subst hw
    simp only [Surface.onResizeEvent]
    omega
  · intro hb
    subst hb
    simp only [Surface.onResizeEvent]
    omega

/-- Witness for C9 at limit 4096 with reported sizes 5000 and 0. -/
theorem resize_clamp_spec_witness :
    (1 ≤ testDevice.limits.maxTextureDimension2D ∧
      1 ≤ ((Surface.new 1 1).onResizeEvent testDevice 5000 5000).canvasWidth ∧
      ((Surface.new 1 1).onResizeEvent testDevice 5000 5000).canvasWidth ≤
        testDevice.limits.maxTextureDimension2D ∧
      1 ≤ ((Surface.new 1 1).onResizeEvent testDevice 5000 5000).canvasHeight ∧
      ((Surface.new 1 1).onResizeEvent testDevice 5000 5000).canvasHeight ≤
        testDevice.limits.maxTextureDimension2D) ∧
    (((Surface.new 1 1).onResizeEvent testDevice 5000 5000).canvasWidth = 4096 ∧
      ((Surface.new 1 1).onResizeEvent testDevice 5000 5000).canvasHeight = 4096) ∧
    ((Surface.new 1 1).onResizeEvent testDevice 0 0).canvasWidth = 1 ∧
    ((Surface.new 1 1).onResizeEvent testDevice 0 0).canvasHeight = 1 :=
  ⟨⟨by decide, (resize_clamp_spec (Surface.new 1 1) testDevice 5000 5000).1 (by decide)⟩,
    (resize_clamp_spec (Surface.new 1 1) testDevice 5000 5000).2.1 rfl rfl rfl,
    (resize_clamp_spec (Surface.new 1 1) testDevice 0 0).2.2.1 rfl,
    (resize_clamp_spec (Surface.new 1 1) testDevice 0 0).2.2.2 rfl⟩

/-- Claim C10: `Gpu.init` is not atomic on failure — when the adapter is
acquired but device creation fails, init throws, `ready()` is false, yet the
`adapter` accessor returns the acquired adapter instead of failing. -/
theorem gpu_init_partial_on_device_failure :
    ∀ (g : Gpu) (plat : Platform) (a : GPUAdapter),
      plat.requestAdapter = some a →
      plat.requestDevice a (g.label ++ " device") = none →
      (g.init plat).2 = .error noWebGpuMsg ∧
      (g.init plat).1.ready = false ∧
      (g.init plat).1.adapter = .ok a := by
  intro g plat a ha hd
  simp [Gpu.init, ha, hd, Gpu.ready, Gpu.adapter]

/-- Witness for C10 on the platform whose device creation fails. -/
theorem gpu_init_partial_witness :
    platNoDevice.requestAdapter = some testAdapter ∧
    platNoDevice.requestDevice testAdapter ((Gpu.new "p").label ++ " device") = none ∧
    (((Gpu.new "p").init platNoDevice).2 = .error noWebGpuMsg ∧
      ((Gpu.new "p").init platNoDevice).1.ready = false ∧
      ((Gpu.new "p").init platNoDevice).1.adapter = .ok testAdapter) :=
  ⟨rfl, rfl,
    gpu_init_partial_on_device_failure (Gpu.new "p") platNoDevice testAdapter rfl rfl⟩

end WgpuEngine
